import Mathlib

/-!
# Verification of the mint.club v2 SDK core

Shallow embedding of the SDK's core logic:

* the bonding-curve argument builder (`BondContract.generateCreateArgs` in
  `src/unnamed/part_000`, `BondContractLogic.generateCreateArgs` in
  `src/src/contracts/BondContractLogic.ts`), including the shared
  merge-adjacent-equal-price-steps loop;
* the chain registry and name resolution (`src/unnamed/part_001`:
  `CHAINS`, `chainStringToId`) and `BondContract.network`;
* the generic contract client (`src/src/utils/numbers.ts`, second embedded
  document: `GenericContractLogic`), in particular `getInstance`,
  `initializeWallet` and the simulate/sign/broadcast/confirm `write`
  pipeline with its lifecycle callbacks and error handling;
* the token-creation orchestrators (`createToken` in both files).

JavaScript `number`/`bigint` values are modelled as `Nat` (all claim-relevant
inputs are non-negative integers); fallible code returns `Except`; the
stateful instance cache is modelled by explicit state passing; the effects of
a `write` call are modelled as a trace of events determined by an environment
that fixes the outcome of every external call.
-/

-- Equality of `Except` values is decidable when it is on both components;
-- used to evaluate the embedded fallible functions on concrete inputs.
deriving instance DecidableEq for Except

/-- Errors thrown by the SDK.  The JS code throws `Error` objects with
message strings; we name the claim-relevant ones and keep an opaque numeric
constructor for errors produced by external collaborators (RPC, wallet,
contract reverts). -/
inductive JsErr where
  /-- `Chain ${id} not supported` (from `BondContract.network` and the
  `GenericContractLogic` constructor). -/
  | unsupportedChain
  /-- `No Ethereum provider found` (from `initializeWallet`). -/
  | noEthereumProvider
  /-- `No wallet client found` (from `write`). -/
  | noWalletClient
  /-- `Invalid step data. Please check your curve` /
  `Invalid step data. Please double check the step data`. -/
  | invalidCurve
  /-- An error raised by an external collaborator (simulation revert,
  broadcast failure, provider rejection, ...). -/
  | ext (code : Nat)
deriving DecidableEq

/-- `wei(num, decimals)` from `src/src/utils/numbers.ts`:
`parseUnits(handleScientificNotation(num.toString()), decimals)`.
For a non-negative integer input `n` (no fractional part, no scientific
notation), `toString` produces the plain decimal digits and `parseUnits`
scales by `10 ^ decimals`, so `wei n d = n * 10 ^ d`. -/
def wei (num : Nat) (decimals : Nat) : Nat :=
  num * 10 ^ decimals

/-- The `merge same price points` loop shared by both `generateCreateArgs`
variants:

```
for (let i = 0; i < stepPrices.length; i++) {
  if (stepPrices[i] === stepPrices[i + 1]) {
    stepRanges.splice(i, 1);
    stepPrices.splice(i, 1);
    i--;
  }
}
```

`stepRanges` and `stepPrices` always have equal length and are spliced at the
same index, so we represent them as one list of (range, price) pairs.  At
index `i` the loop repeatedly deletes entry `i` while its price equals the
price of entry `i + 1` (keeping the later entry), then moves on; this is
exactly the recursion below.  (When `i + 1` is out of bounds,
`stepPrices[i + 1]` is `undefined`, which is `===`-unequal to any `bigint`.) -/
def mergeSteps : List (Nat × Nat) → List (Nat × Nat)
  | [] => []
  | [a] => [a]
  | a :: b :: rest =>
    if a.2 = b.2 then mergeSteps (b :: rest) else a :: mergeSteps (b :: rest)

/-! ## Chain registry (`src/unnamed/part_001`) -/

/-- One entry of the static `CHAINS` table.  Only the claim-relevant fields
(numeric `id` and canonical `name`) are modelled; `icon`, `color`,
`openseaSlug`, `isTestnet` and the address-derived `enabled` flag play no
role in name/id resolution. -/
structure ChainInfo where
  id : Nat
  name : String
deriving DecidableEq

/-- The static `CHAINS` registry: mainnet, base, optimism, arbitrum,
avalanche, polygon, bsc, sepolia, with the ids those viem chain objects
carry. -/
def CHAINS : List ChainInfo :=
  [⟨1, "Ethereum"⟩, ⟨8453, "Base"⟩, ⟨10, "Optimism"⟩, ⟨42161, "Arbitrum"⟩,
   ⟨43114, "Avalanche"⟩, ⟨137, "Polygon"⟩, ⟨56, "BNBChain"⟩,
   ⟨11155111, "Sepolia"⟩]

/-- `toLowerCase()`, applied character by character (all registry names are
ASCII, where JS `toLowerCase` lower-cases each character independently). -/
def strLower (s : String) : String := ⟨s.data.map Char.toLower⟩

/-- `toUpperCase()`, applied character by character (ASCII symbols). -/
def strUpper (s : String) : String := ⟨s.data.map Char.toUpper⟩

/-- `chainStringToId(name)`:
```
if (!name) return;
const found = CHAINS.find((chain) => chain.name?.toLowerCase() === name.toLowerCase());
return found?.id;
```
A string is JS-falsy exactly when it is empty. -/
def chainStringToId (name : String) : Option Nat :=
  if name = "" then none
  else (CHAINS.find? (fun c => strLower c.name = strLower name)).map (·.id)

/-- The fields of a `GenericContractLogic`/`BondContract` object, as far as
`BondContract.network` can observe or change them.  Connection objects are
modelled by opaque tags. -/
structure ClientState where
  chainId : Nat
  contractType : String
  abiTag : Nat
  publicClientTag : Nat
  walletClientTag : Option Nat
deriving DecidableEq

/-- `BondContract.network(id)` (`src/unnamed/part_000`):
```
let chainId;
if (typeof id === 'string') chainId = chainStringToId(id);
else chainId = id;
if (!chainId) throw new Error(`Chain ... not supported`);
return this;
```
`!chainId` is true exactly when `chainId` is `undefined` (name lookup
failed) or `0`; a non-zero numeric id is never compared against the
registry. -/
def BondContract.network (c : ClientState) (id : Nat ⊕ String) :
    Except JsErr ClientState :=
  let chainId : Option Nat :=
    match id with
    | Sum.inl n => some n
    | Sum.inr s => chainStringToId s
  match chainId with
  | none => Except.error JsErr.unsupportedChain
  | some n => if n = 0 then Except.error JsErr.unsupportedChain else Except.ok c

/-- An argument `resolves to` a registered chain: a numeric id present in the
registry, or a name that `chainStringToId` resolves. -/
def resolvesToRegisteredChain : Nat ⊕ String → Bool
  | Sum.inl n => CHAINS.any (·.id = n)
  | Sum.inr s => (chainStringToId s).isSome

/-- Every id in the registry is non-zero. -/
theorem chains_ids_ne_zero : ∀ c ∈ CHAINS, c.id ≠ 0 := by decide

/-! ## Bonding-curve argument builder -/

/-- Token standard tag: `'ERC20' | 'ERC1155'`. -/
inductive TokenType where
  | ERC20
  | ERC1155
deriving DecidableEq

/-- `tokenType === 'ERC20' ? 18 : 0`: fungible tokens are scaled to 18
decimal places, count-based (ERC1155) tokens to 0. -/
def decimalsFor : TokenType → Nat
  | TokenType.ERC20 => 18
  | TokenType.ERC1155 => 0

/-- `tokenParams` as assembled by both builders (the optional `uri` is never
set by the code under verification). -/
structure TokenParams where
  name : String
  symbol : String
  uri : Option String
deriving DecidableEq

/-- `bondParams` as assembled by both builders. -/
structure BondParams where
  mintRoyalty : Nat
  burnRoyalty : Nat
  reserveToken : String
  maxSupply : Nat
  stepRanges : List Nat
  stepPrices : List Nat
deriving DecidableEq

/-- Input of `BondContract.generateCreateArgs` (`src/unnamed/part_000`):
`CreateTokenParams` with `stepData: { x: number; y: number }[]` given as a
list of `(x, y)` pairs. -/
structure CreateTokenParams where
  tokenType : TokenType
  name : String
  symbol : String
  reserveAddress : String
  reserveDecimals : Nat
  mintRoyalty : Nat
  burnRoyalty : Nat
  maxSupply : Nat
  creatorAllocation : Nat
  stepData : List (Nat × Nat)
deriving DecidableEq

/-- Modelled from the spec: `restructureStepData` is imported from
`../utils`, whose source is not part of this repository snapshot.  The
spec's builder algorithm (§4.3) operates on the supplied ordered checkpoints
directly, and the call site names its result `clonedStepData`, so it is
modelled as a clone (identity on the list of checkpoints). -/
def restructureStepData (l : List (Nat × Nat)) : List (Nat × Nat) := l

/-- Steps 1–2 of `BondContract.generateCreateArgs`: scale each checkpoint
(`stepRanges`/`stepPrices` are built index-aligned, so they are represented
as one list of pairs), then, when `creatorAllocation && creatorAllocation > 0`,
`unshift` the zero-price allocation step. -/
def BondContract.allocSteps (p : CreateTokenParams) : List (Nat × Nat) :=
  let cloned := restructureStepData p.stepData
  let base := cloned.map
    (fun q => (wei q.1 (decimalsFor p.tokenType), wei q.2 p.reserveDecimals))
  if 0 < p.creatorAllocation then
    (wei p.creatorAllocation (decimalsFor p.tokenType), 0) :: base
  else base

/-- `BondContract.generateCreateArgs` (`src/unnamed/part_000`, lines 47–94):
scale, prepend the creator-allocation step, merge equal-price neighbours,
validate, and assemble `tokenParams` (symbol upper-cased) and `bondParams`.
The validation guard is
`!stepData || stepRanges.length === 0 || stepPrices.length === 0 || stepRanges.length !== stepPrices.length`;
`!stepData` is false for every array value in JS — including the empty
array — so only the three length tests are operative. -/
def BondContract.generateCreateArgs (p : CreateTokenParams) :
    Except JsErr (TokenParams × BondParams) :=
  let merged := mergeSteps (BondContract.allocSteps p)
  let stepRanges := merged.map Prod.fst
  let stepPrices := merged.map Prod.snd
  if stepRanges.length = 0 ∨ stepPrices.length = 0 ∨
      stepRanges.length ≠ stepPrices.length then
    Except.error JsErr.invalidCurve
  else
    Except.ok
      (⟨p.name, strUpper p.symbol, none⟩,
       ⟨p.mintRoyalty * 100, p.burnRoyalty * 100, p.reserveAddress,
        wei p.maxSupply (decimalsFor p.tokenType), stepRanges, stepPrices⟩)

/-- Input of `BondContractLogic.generateCreateArgs`
(`src/src/contracts/BondContractLogic.ts`): no `maxSupply`, no
`creatorAllocation`; `stepData: { rangeTo: number; price: number }[]` given
as `(rangeTo, price)` pairs.  The `tokenType` is passed separately because
`createToken` forces it to `'ERC20'`. -/
structure CreateTokenParamsL where
  name : String
  symbol : String
  reserveAddress : String
  reserveDecimals : Nat
  mintRoyalty : Nat
  burnRoyalty : Nat
  stepData : List (Nat × Nat)
deriving DecidableEq

/-- `BondContractLogic.generateCreateArgs` (lines 19–62): scale each
checkpoint, merge equal-price neighbours, validate, and assemble the
parameters.  No creator-allocation step, the symbol is passed through
unmodified, and `maxSupply` is `stepRanges[stepRanges.length - 1]` (the last
merged boundary; the validation guarantees the array is non-empty on this
branch). -/
def BondContractLogic.generateCreateArgs (tokenType : TokenType)
    (p : CreateTokenParamsL) : Except JsErr (TokenParams × BondParams) :=
  let merged := mergeSteps (p.stepData.map
    (fun q => (wei q.1 (decimalsFor tokenType), wei q.2 p.reserveDecimals)))
  let stepRanges := merged.map Prod.fst
  let stepPrices := merged.map Prod.snd
  if stepRanges.length = 0 ∨ stepPrices.length = 0 ∨
      stepRanges.length ≠ stepPrices.length then
    Except.error JsErr.invalidCurve
  else
    Except.ok
      (⟨p.name, p.symbol, none⟩,
       ⟨p.mintRoyalty * 100, p.burnRoyalty * 100, p.reserveAddress,
        stepRanges.getLast?.getD 0, stepRanges, stepPrices⟩)

/-! ## Token-creation orchestrators -/

/-- Which lifecycle callbacks the caller supplied.  The pipeline only ever
invokes a callback when it is supplied (`onError?.(e)` etc.), so supplying
one is modelled as a `Bool` per callback. -/
structure Callbacks where
  onError : Bool
  onRequestSignature : Bool
  onSigned : Bool
  onSuccess : Bool
deriving DecidableEq

/-- The argument record a `createToken` orchestrator hands to
`GenericContractLogic.write`. -/
structure CreateWriteCall where
  functionName : String
  tokenParams : TokenParams
  bondParams : BondParams
  value : Option Nat
  callbacks : Callbacks
deriving DecidableEq

/-- `BondContract.createToken` (`src/unnamed/part_000`, lines 96–111): build
the curve arguments, read `creationFee` (its result is the `fee` argument
here), and call `write` with `functionName: 'createToken'`,
`args: [tokenParams, bondParams]` and `value: fee`.  The four lifecycle
callbacks accepted in `params` are *not* passed on to `write`: the object
literal passed to `this.write` contains only `functionName`, `args` and
`value`. -/
def BondContract.createToken (p : CreateTokenParams) (_cbs : Callbacks)
    (fee : Nat) : Except JsErr CreateWriteCall :=
  match BondContract.generateCreateArgs p with
  | Except.error e => Except.error e
  | Except.ok (tp, bp) =>
    Except.ok ⟨"createToken", tp, bp, some fee, ⟨false, false, false, false⟩⟩

/-- `BondContractLogic.createToken` (`src/src/contracts/BondContractLogic.ts`,
lines 64–85): force `tokenType: 'ERC20'`, build the curve arguments, read
`creationFee`, and call `write` with `functionName: 'createToken'`,
`args: [tokenParams, bondParams]`, `value: fee` and the caller's `onError`,
`onRequestSignature`, `onSigned`, `onSuccess` forwarded unchanged. -/
def BondContractLogic.createToken (p : CreateTokenParamsL) (cbs : Callbacks)
    (fee : Nat) : Except JsErr CreateWriteCall :=
  match BondContractLogic.generateCreateArgs TokenType.ERC20 p with
  | Except.error e => Except.error e
  | Except.ok (tp, bp) =>
    Except.ok ⟨"createToken", tp, bp, some fee, cbs⟩

/-! ## Generic contract client: the `write` pipeline
(`src/src/utils/numbers.ts`, second embedded document) -/

/-- The wallet client as observable by `write` after `initializeWallet`:
the bound account (first address returned by `requestAddresses`, if any) and
the chain the client was created with.  Every `createWalletClient` call in
`initializeWallet` passes `chain: this.chain`. -/
structure WalletClient where
  account : Option String
  chainId : Nat
deriving DecidableEq

/-- Environment fixing the outcome of every external call one `write`
performs: ambient state (`window.ethereum`, a pre-existing wallet client)
and the result of each asynchronous collaborator call.  A `.error` outcome
models the promise rejecting / the call throwing. -/
structure WriteEnv where
  /-- `this.walletClient` is already set when `write` begins. -/
  hasWalletClient : Bool
  /-- `window.ethereum` is present. -/
  windowEthereum : Bool
  /-- Result of `walletClient.requestAddresses()` during `initializeWallet`. -/
  requestAddressesRes : Except JsErr (List String)
  /-- Result of `walletClient.getAddresses()` in `write`. -/
  getAddressesRes : Except JsErr (List String)
  /-- Result of `walletClient.switchChain(...)`. -/
  switchChainRes : Except JsErr Unit
  /-- Result of `walletClient.addChain(...)`. -/
  addChainRes : Except JsErr Unit
  /-- Result of `publicClient.simulateContract(...)`; the payload is an
  opaque tag for the validated request descriptor. -/
  simulateRes : Except JsErr Nat
  /-- Result of `walletClient.writeContract(request)`; the payload models the
  transaction hash. -/
  writeContractRes : Except JsErr Nat
  /-- Result of `publicClient.waitForTransactionReceipt(...)`; the payload
  models the receipt. -/
  waitReceiptRes : Except JsErr Nat
deriving DecidableEq

/-- The per-call arguments of `write` (`GenericWriteParams`): function name,
arguments (opaque tag), optional value, and which lifecycle callbacks were
supplied. -/
structure WriteParams where
  functionName : String
  argsTag : Nat
  value : Option Nat
  cbs : Callbacks
deriving DecidableEq

/-- The catch block enriches the caught error via
`Object.assign(e, { functionName, args, simulationArgs, value, account, walletClient })`.
The claim-relevant annotation fields are modelled: the attempted function
name, the arguments and the account. -/
structure AnnotatedErr where
  base : JsErr
  functionName : String
  argsTag : Nat
  account : Option String
deriving DecidableEq

/-- Observable events of one `write` call, in order of occurrence: internal
pipeline stages (`simulated`, `submitted`, `confirmed`) and lifecycle
callback invocations (`cb...`). -/
inductive Event where
  /-- `simulateContract` returned successfully. -/
  | simulated
  /-- `onRequestSignature?.()` was invoked. -/
  | cbRequestSignature
  /-- `writeContract` returned the transaction hash. -/
  | submitted (tx : Nat)
  /-- `onSigned?.(tx)` was invoked. -/
  | cbSigned (tx : Nat)
  /-- `waitForTransactionReceipt` returned the receipt. -/
  | confirmed (receipt : Nat)
  /-- `onSuccess?.(receipt)` was invoked. -/
  | cbSuccess (receipt : Nat)
  /-- `onError?.(e)` was invoked with the annotated error. -/
  | cbError (e : AnnotatedErr)
deriving DecidableEq

/-- `GenericContractLogic.initializeWallet` (lines 268–295).  With an
existing wallet client, re-request the address list and rebuild the client
bound to its first address; otherwise fail when no ambient `window.ethereum`
provider exists, else build a client from it the same way.  Every rebuilt
client is created with `chain: this.chain`, so the returned client's chain
is always the instance's target chain.  (`const [address] = ...` leaves
`address` undefined when the list is empty, giving a client without an
account.) -/
def initWallet (env : WriteEnv) (targetChain : Nat) :
    Except JsErr WalletClient :=
  if env.hasWalletClient then
    match env.requestAddressesRes with
    | Except.error e => Except.error e
    | Except.ok addrs => Except.ok ⟨addrs.head?, targetChain⟩
  else if env.windowEthereum = false then
    Except.error JsErr.noEthereumProvider
  else
    match env.requestAddressesRes with
    | Except.error e => Except.error e
    | Except.ok addrs => Except.ok ⟨addrs.head?, targetChain⟩

/-- The chain-alignment step of `write` (lines 330–334):
`if (walletClient.chain?.id !== this.chain.id)` then `switchChain`, falling
back to `addChain` once via `.catch`; a rejection of the fallback
propagates. -/
def alignChain (env : WriteEnv) (wc : WalletClient) (targetChain : Nat) :
    Except JsErr Unit :=
  if wc.chainId = targetChain then Except.ok ()
  else
    match env.switchChainRes with
    | Except.ok _ => Except.ok ()
    | Except.error _ => env.addChainRes

/-- The catch block of `write` (lines 368–373): annotate the error and
invoke `onError` when supplied.  (The JS guards the annotation with
`if (e)`; every error this model produces is a truthy `Error` value.) -/
def catchEvents (e : JsErr) (p : WriteParams) (account : Option String) :
    List Event :=
  if p.cbs.onError then [Event.cbError ⟨e, p.functionName, p.argsTag, account⟩]
  else []

/-- The `try` block of `write` (lines 349–373): simulate, fire
`onRequestSignature`, submit, fire `onSigned(tx)`, await the receipt, fire
`onSuccess(receipt)`, and return the receipt; any rejection inside the block
is caught, annotated and routed to `onError`, after which the function
returns `undefined` (modelled `Except.ok none`). -/
def runTry (env : WriteEnv) (p : WriteParams) (account : Option String) :
    Except JsErr (Option Nat) × List Event :=
  match env.simulateRes with
  | Except.error e => (Except.ok none, catchEvents e p account)
  | Except.ok _ =>
    let ev1 : List Event :=
      Event.simulated ::
        (if p.cbs.onRequestSignature then [Event.cbRequestSignature] else [])
    match env.writeContractRes with
    | Except.error e => (Except.ok none, ev1 ++ catchEvents e p account)
    | Except.ok tx =>
      let ev2 : List Event :=
        ev1 ++ Event.submitted tx ::
          (if p.cbs.onSigned then [Event.cbSigned tx] else [])
      match env.waitReceiptRes with
      | Except.error e => (Except.ok none, ev2 ++ catchEvents e p account)
      | Except.ok receipt =>
        (Except.ok (some receipt),
         ev2 ++ Event.confirmed receipt ::
           (if p.cbs.onSuccess then [Event.cbSuccess receipt] else []))

/-- `GenericContractLogic.write` (lines 323–374).  Before the `try` block:
`await this.initializeWallet()`, the `No wallet client found` guard, the
chain-alignment step and `await walletClient.getAddresses()` — a failure in
any of these propagates to the caller (result `Except.error`) and no
callback fires.  From `simulateContract` on, everything runs inside the
`try` block (`runTry`).  The result payload models the returned receipt:
`some receipt` on success, `none` when the catch block swallowed an
error. -/
def runWrite (env : WriteEnv) (targetChain : Nat) (p : WriteParams) :
    Except JsErr (Option Nat) × List Event :=
  match initWallet env targetChain with
  | Except.error e => (Except.error e, [])
  | Except.ok wc =>
    if wc.account = none then (Except.error JsErr.noWalletClient, [])
    else
      match alignChain env wc targetChain with
      | Except.error e => (Except.error e, [])
      | Except.ok _ =>
        match env.getAddressesRes with
        | Except.error e => (Except.error e, [])
        | Except.ok addrs => runTry env p addrs.head?

/-! ## Generic contract client: the per-chain instance cache -/

/-- One `GenericContractLogic` object.  `objId` models JS object identity:
each construction allocates a fresh id, and two references are the identical
object exactly when their `objId`s agree. -/
structure ClientInstance where
  chainId : Nat
  contractType : String
  abiTag : Nat
  objId : Nat
deriving DecidableEq

/-- The state backing `GenericContractLogic.instances` (the static,
process-wide cache keyed by chain id, line 189) together with the object-id
allocator. -/
structure CacheState where
  instances : List (Nat × ClientInstance)
  nextObjId : Nat
deriving DecidableEq

/-- The `GenericContractLogic` constructor (lines 197–216): fails when
`CHAIN_MAP[chainId]` has no entry (`Chain ${chainId} not supported`); the
subsequent viem-chain lookup succeeds for every registry chain.  On success
the new object records its chain id, contract type and abi. -/
def mkClientInstance (chainId : Nat) (contractType : String) (abiTag : Nat)
    (objId : Nat) : Except JsErr ClientInstance :=
  if CHAINS.any (·.id = chainId) then
    Except.ok ⟨chainId, contractType, abiTag, objId⟩
  else Except.error JsErr.unsupportedChain

/-- `GenericContractLogic.getInstance(chainId, type, abi)` (lines 297–308):
```
if (!this.instances[chainId]) {
  this.instances[chainId] = new this({ chainId, type, abi });
}
return this.instances[chainId];
```
When the constructor throws, nothing is cached and the error propagates. -/
def getInstance (st : CacheState) (chainId : Nat) (contractType : String)
    (abiTag : Nat) : Except JsErr ClientInstance × CacheState :=
  match st.instances.lookup chainId with
  | some inst => (Except.ok inst, st)
  | none =>
    match mkClientInstance chainId contractType abiTag st.nextObjId with
    | Except.error e => (Except.error e, st)
    | Except.ok inst =>
      (Except.ok inst, ⟨(chainId, inst) :: st.instances, st.nextObjId + 1⟩)

/-! ## Concrete sample inputs -/

/-- A client targeting mainnet, used to evaluate `BondContract.network`. -/
def sampleClient : ClientState := ⟨1, "BOND", 0, 0, none⟩

/-- All four lifecycle callbacks supplied. -/
def allCallbacks : Callbacks := ⟨true, true, true, true⟩

/-- Empty checkpoint list with a positive creator allocation (count-based
token, reserve decimals 0). -/
def emptyStepsAllocParams : CreateTokenParams :=
  ⟨TokenType.ERC1155, "Mint", "mint", "0xreserve", 0, 1, 1, 50, 50, []⟩

/-- Empty checkpoint list with creator allocation 0. -/
def emptyStepsNoAllocParams : CreateTokenParams :=
  ⟨TokenType.ERC1155, "Mint", "mint", "0xreserve", 0, 1, 1, 50, 0, []⟩

/-- Creator allocation `50` followed by a zero-price first checkpoint
`(100, 0)` and then `(200, 1)` (count-based token, reserve decimals 0). -/
def zeroPriceLeadParams : CreateTokenParams :=
  ⟨TokenType.ERC1155, "Mint", "mint", "0xreserve", 0, 1, 1, 200, 50,
   [(100, 0), (200, 1)]⟩

/-- A well-formed single-checkpoint input for the `createToken`
orchestrators (count-based token so the scaled values stay small). -/
def sampleCreateParams : CreateTokenParams :=
  ⟨TokenType.ERC1155, "Mint", "mint", "0xreserve", 0, 1, 1, 100, 0,
   [(100, 5)]⟩

/-- The same single-checkpoint input for the `BondContractLogic` variant. -/
def sampleCreateParamsL : CreateTokenParamsL :=
  ⟨"Mint", "mint", "0xreserve", 0, 1, 1, [(100, 5)]⟩

/-- Arguments of a sample `write` call with every callback supplied. -/
def sampleWriteParams : WriteParams := ⟨"createToken", 7, some 3, allCallbacks⟩

/-- Environment in which every external call of the `write` pipeline
succeeds: an existing wallet client on account `0xacc`, simulation yields
request `1`, submission yields transaction hash `2`, confirmation yields
receipt `3`. -/
def envAllOk : WriteEnv :=
  ⟨true, true, Except.ok ["0xacc"], Except.ok ["0xacc"], Except.ok (),
   Except.ok (), Except.ok 1, Except.ok 2, Except.ok 3⟩

/-- Like `envAllOk`, but `simulateContract` rejects (e.g. a contract-side
revert, error code `5`). -/
def envSimFail : WriteEnv :=
  ⟨true, true, Except.ok ["0xacc"], Except.ok ["0xacc"], Except.ok (),
   Except.ok (), Except.error (JsErr.ext 5), Except.ok 2, Except.ok 3⟩

/-- Environment with no pre-existing wallet client and no ambient
`window.ethereum` provider: signer binding (pipeline step 1) fails. -/
def envNoProvider : WriteEnv :=
  ⟨false, false, Except.ok ["0xacc"], Except.ok ["0xacc"], Except.ok (),
   Except.ok (), Except.ok 1, Except.ok 2, Except.ok 3⟩

/-- The empty instance cache (process start). -/
def emptyCache : CacheState := ⟨[], 0⟩

/-! ## Helper lemmas about the merge step -/

/-- The head of the merged list carries the price of the original head:
merging only ever deletes an entry in favour of a later entry of the same
price. -/
theorem mergeSteps_head_price :
    ∀ (l : List (Nat × Nat)) (a : Nat × Nat),
      (mergeSteps (a :: l)).head?.map Prod.snd = some a.2 := by
  intro l
  induction l with
  | nil => intro a; simp [mergeSteps]
  | cons b rest ih =>
    intro a
    by_cases h : a.2 = b.2
    · rw [mergeSteps, if_pos h, ih b, h]
    · rw [mergeSteps, if_neg h]
      simp

/-- Merging a non-empty list yields a non-empty list. -/
theorem mergeSteps_ne_nil (l : List (Nat × Nat)) (a : Nat × Nat) :
    mergeSteps (a :: l) ≠ [] := by
  intro hnil
  have h := mergeSteps_head_price l a
  rw [hnil] at h
  simp at h

/-- After merging, no two adjacent entries share a price. -/
theorem mergeSteps_chain' :
    ∀ l : List (Nat × Nat),
      List.Chain' (fun a b : Nat × Nat => a.2 ≠ b.2) (mergeSteps l) := by
  intro l
  induction l with
  | nil => simp [mergeSteps]
  | cons a t ih =>
    cases t with
    | nil => simp [mergeSteps]
    | cons b rest =>
      by_cases h : a.2 = b.2
      · rw [mergeSteps, if_pos h]; exact ih
      · rw [mergeSteps, if_neg h]
        refine List.chain'_cons'.mpr ⟨?_, ih⟩
        intro y hy
        have hh := mergeSteps_head_price rest b
        rw [hy] at hh
        simp only [Option.map_some', Option.some.injEq] at hh
        rw [hh]
        exact h

/-- Closed form of the merge: an entry survives exactly when its successor
has a different price or it is the last entry; in particular the survivor of
each maximal run of equal-price entries is the run's last (largest-index)
entry, carrying that run's boundary. -/
theorem mergeSteps_eq_keepLastOfRuns :
    ∀ l : List (Nat × Nat),
      mergeSteps l =
        ((l.zip l.tail).filter (fun q => q.1.2 != q.2.2)).map Prod.fst
          ++ l.getLast?.toList := by
  intro l
  induction l with
  | nil => simp [mergeSteps]
  | cons a t ih =>
    cases t with
    | nil => simp [mergeSteps]
    | cons b rest =>
      have hlast : (a :: b :: rest).getLast? = (b :: rest).getLast? := by
        simp
      by_cases h : a.2 = b.2
      · rw [mergeSteps, if_pos h]
        rw [ih, hlast]
        simp only [List.tail_cons, List.zip_cons_cons, List.filter_cons]
        have hb : (a.2 != b.2) = false := by simpa using h
        simp [hb]
      · rw [mergeSteps, if_neg h]
        rw [ih, hlast]
        simp only [List.tail_cons, List.zip_cons_cons, List.filter_cons]
        have hb : (a.2 != b.2) = true := by simpa using h
        simp [hb]

/-- Merging an already-merged list is a no-op. -/
theorem mergeSteps_eq_self_of_chain' :
    ∀ l : List (Nat × Nat),
      List.Chain' (fun a b : Nat × Nat => a.2 ≠ b.2) l → mergeSteps l = l := by
  intro l
  induction l with
  | nil => intro _; rfl
  | cons a t ih =>
    cases t with
    | nil => intro _; rfl
    | cons b rest =>
      intro h
      have hab : a.2 ≠ b.2 := (List.chain'_cons.mp h).1
      rw [mergeSteps, if_neg hab, ih (List.chain'_cons.mp h).2]

/-! ## Helper lemmas about the builder -/

/-- `BondContract.generateCreateArgs` in terms of the merged step list: the
three length tests of the validation guard amount to the merged list being
empty (the range and price projections of one list always have equal
length). -/
theorem BondContract.generateCreateArgs_eq (p : CreateTokenParams) :
    BondContract.generateCreateArgs p =
      if mergeSteps (BondContract.allocSteps p) = [] then
        Except.error JsErr.invalidCurve
      else
        Except.ok (⟨p.name, strUpper p.symbol, none⟩,
          ⟨p.mintRoyalty * 100, p.burnRoyalty * 100, p.reserveAddress,
           wei p.maxSupply (decimalsFor p.tokenType),
           (mergeSteps (BondContract.allocSteps p)).map Prod.fst,
           (mergeSteps (BondContract.allocSteps p)).map Prod.snd⟩) := by
  unfold BondContract.generateCreateArgs
  simp [List.length_eq_zero]

/-! ## Claim C2 -/

/-- **C2, counterexample.** The claim asserts that every empty checkpoint
sequence is rejected with `InvalidCurve` regardless of the other inputs,
including a positive creator allocation.  On the code, an empty checkpoint
list with creator allocation `50` (count-based token, reserve decimals 0) is
*not* rejected: the prepended allocation step survives the length checks
(`!stepData` is false for an empty array), and the builder succeeds with a
single zero-price step. -/
theorem emptySteps_with_allocation_not_rejected :
    BondContract.generateCreateArgs emptyStepsAllocParams =
      Except.ok (⟨"Mint", "MINT", none⟩,
        ⟨100, 100, "0xreserve", 50, [50], [0]⟩) := by decide

/-- **C2, amended.** For every empty checkpoint sequence: with creator
allocation zero the builder fails with `InvalidCurve`; with a positive
creator allocation it instead succeeds, producing exactly one step whose
boundary is the scaled allocation and whose price is zero. -/
theorem generateCreateArgs_empty_checkpoints (p : CreateTokenParams)
    (h : p.stepData = []) :
    (p.creatorAllocation = 0 →
      BondContract.generateCreateArgs p = Except.error JsErr.invalidCurve) ∧
    (0 < p.creatorAllocation →
      BondContract.generateCreateArgs p =
        Except.ok (⟨p.name, strUpper p.symbol, none⟩,
          ⟨p.mintRoyalty * 100, p.burnRoyalty * 100, p.reserveAddress,
           wei p.maxSupply (decimalsFor p.tokenType),
           [wei p.creatorAllocation (decimalsFor p.tokenType)], [0]⟩)) := by
  constructor
  · intro h0
    have halloc : BondContract.allocSteps p = [] := by
      simp [BondContract.allocSteps, restructureStepData, h, h0]
    rw [BondContract.generateCreateArgs_eq, halloc]
    simp [mergeSteps]
  · intro hpos
    have halloc : BondContract.allocSteps p =
        [(wei p.creatorAllocation (decimalsFor p.tokenType), 0)] := by
      simp [BondContract.allocSteps, restructureStepData, h, hpos]
    rw [BondContract.generateCreateArgs_eq, halloc]
    simp [mergeSteps]

/-- **C2, witness.** The amended claim evaluated at an empty checkpoint list
with creator allocation zero. -/
theorem generateCreateArgs_empty_checkpoints_witness :
    BondContract.generateCreateArgs emptyStepsNoAllocParams =
      Except.error JsErr.invalidCurve :=
  (generateCreateArgs_empty_checkpoints emptyStepsNoAllocParams rfl).1 rfl

/-! ## Claim C5 -/

/-- **C5.** For every scaled step sequence containing two or more adjacent
entries with identical price (`¬ Chain'` of pairwise price difference), the
merge produces a list in which no two adjacent entries share a price, and
the survivors are exactly the entries whose successor has a different price
plus the final entry — i.e. the last (largest-index) entry, and hence the
last boundary, of each run of equal-price entries. -/
theorem mergeSteps_removes_adjacent_dups_keeps_last (l : List (Nat × Nat))
    (_h : ¬ List.Chain' (fun a b : Nat × Nat => a.2 ≠ b.2) l) :
    List.Chain' (fun a b : Nat × Nat => a.2 ≠ b.2) (mergeSteps l) ∧
    mergeSteps l =
      ((l.zip l.tail).filter (fun q => q.1.2 != q.2.2)).map Prod.fst
        ++ l.getLast?.toList :=
  ⟨mergeSteps_chain' l, mergeSteps_eq_keepLastOfRuns l⟩

/-- **C5, witness.** The merge of `[(100,1), (200,1), (300,2)]` — two
adjacent entries of price 1 — keeps the later boundary `200`. -/
theorem mergeSteps_removes_adjacent_dups_keeps_last_witness :
    (¬ List.Chain' (fun a b : Nat × Nat => a.2 ≠ b.2)
        [(100, 1), (200, 1), (300, 2)]) ∧
    (List.Chain' (fun a b : Nat × Nat => a.2 ≠ b.2)
        (mergeSteps [(100, 1), (200, 1), (300, 2)]) ∧
      mergeSteps [(100, 1), (200, 1), (300, 2)] =
        ((([(100, 1), (200, 1), (300, 2)] : List (Nat × Nat)).zip
            ([(100, 1), (200, 1), (300, 2)] : List (Nat × Nat)).tail).filter
              (fun q => q.1.2 != q.2.2)).map Prod.fst
          ++ ([(100, 1), (200, 1), (300, 2)] : List (Nat × Nat)).getLast?.toList) :=
  ⟨by simp [List.chain'_cons],
   mergeSteps_removes_adjacent_dups_keeps_last _ (by simp [List.chain'_cons])⟩

/-! ## Claim C8 -/

/-- **C8.** The merge step is idempotent: on range/price arrays that already
contain no two adjacent entries of identical price, the merge leaves the
(index-aligned) arrays unchanged. -/
theorem mergeSteps_idempotent_on_merged (ranges prices : List Nat)
    (hlen : ranges.length = prices.length)
    (h : List.Chain' (· ≠ ·) prices) :
    mergeSteps (ranges.zip prices) = ranges.zip prices := by
  apply mergeSteps_eq_self_of_chain'
  have hm : (ranges.zip prices).map Prod.snd = prices :=
    List.map_snd_zip ranges prices (le_of_eq hlen.symm)
  rw [← hm] at h
  exact (List.chain'_map Prod.snd).mp h

/-- **C8, witness.** Re-merging the already-merged arrays
`ranges = [200, 300]`, `prices = [1, 2]` changes nothing. -/
theorem mergeSteps_idempotent_on_merged_witness :
    mergeSteps ([200, 300].zip [1, 2]) = [200, 300].zip [1, 2] :=
  mergeSteps_idempotent_on_merged [200, 300] [1, 2] (by decide)
    (by simp [List.chain'_cons])

/-! ## Claim C6 -/

/-- **C6, counterexample.** The claim asserts that for every positive
creator allocation the first step's boundary equals the scaled allocation.
With allocation `50` and checkpoints `[(100, 0), (200, 1)]` (count-based
token, so scaling is the identity) the zero-price allocation step is merged
with the zero-price first checkpoint and the surviving first boundary is
`100`, not the scaled allocation `50`. -/
theorem allocation_boundary_merged_away :
    BondContract.generateCreateArgs zeroPriceLeadParams =
      Except.ok (⟨"Mint", "MINT", none⟩,
        ⟨100, 100, "0xreserve", 200, [100, 200], [0, 1]⟩) ∧
    (100 : Nat) ≠ wei zeroPriceLeadParams.creatorAllocation
      (decimalsFor zeroPriceLeadParams.tokenType) := by decide

/-- **C6, amended.** For every positive creator-allocation value the builder
succeeds and the first element of the result has price zero; the first
range boundary equals the allocation scaled to the token's smallest unit
provided the first checkpoint (if any) has non-zero price — when the first
checkpoint's price is zero, the merge step replaces the allocation boundary
by a later boundary of the leading zero-price run instead. -/
theorem generateCreateArgs_allocation_head (p : CreateTokenParams)
    (h : 0 < p.creatorAllocation) :
    ∃ tp bp, BondContract.generateCreateArgs p = Except.ok (tp, bp) ∧
      bp.stepPrices.head? = some 0 ∧
      ((∀ q ∈ p.stepData.head?, q.2 ≠ 0) →
        bp.stepRanges.head? =
          some (wei p.creatorAllocation (decimalsFor p.tokenType))) := by
  have halloc : BondContract.allocSteps p =
      (wei p.creatorAllocation (decimalsFor p.tokenType), 0) ::
        p.stepData.map (fun q =>
          (wei q.1 (decimalsFor p.tokenType), wei q.2 p.reserveDecimals)) := by
    simp [BondContract.allocSteps, restructureStepData, h]
  have hne : mergeSteps (BondContract.allocSteps p) ≠ [] := by
    rw [halloc]; exact mergeSteps_ne_nil _ _
  refine ⟨⟨p.name, strUpper p.symbol, none⟩,
    ⟨p.mintRoyalty * 100, p.burnRoyalty * 100, p.reserveAddress,
     wei p.maxSupply (decimalsFor p.tokenType),
     (mergeSteps (BondContract.allocSteps p)).map Prod.fst,
     (mergeSteps (BondContract.allocSteps p)).map Prod.snd⟩, ?_, ?_, ?_⟩
  · rw [BondContract.generateCreateArgs_eq, if_neg hne]
  · rw [List.head?_map, halloc]
    have hh := mergeSteps_head_price
      (p.stepData.map (fun q =>
        (wei q.1 (decimalsFor p.tokenType), wei q.2 p.reserveDecimals)))
      (wei p.creatorAllocation (decimalsFor p.tokenType), 0)
    simpa using hh
  · intro hq
    rw [List.head?_map, halloc]
    cases hd : p.stepData with
    | nil => simp [hd, mergeSteps]
    | cons q rest =>
      have hq2 : q.2 ≠ 0 := hq q (by rw [hd]; rfl)
      have hw : wei q.2 p.reserveDecimals ≠ 0 := by
        simp only [wei]
        exact mul_ne_zero hq2 (pow_ne_zero _ (by norm_num))
      simp only [List.map_cons]
      rw [mergeSteps, if_neg (fun hc => hw hc.symm)]
      simp

/-- Concrete input for the C6 witness: allocation `7`, one checkpoint
`(9, 4)` of non-zero price, count-based token. -/
def allocWitnessParams : CreateTokenParams :=
  ⟨TokenType.ERC1155, "Mint", "mint", "0xreserve", 0, 1, 1, 9, 7, [(9, 4)]⟩

/-- **C6, witness.** The amended claim evaluated at `allocWitnessParams`. -/
theorem generateCreateArgs_allocation_head_witness :
    ∃ tp bp,
      BondContract.generateCreateArgs allocWitnessParams = Except.ok (tp, bp) ∧
      bp.stepPrices.head? = some 0 ∧
      ((∀ q ∈ allocWitnessParams.stepData.head?, q.2 ≠ 0) →
        bp.stepRanges.head? =
          some (wei allocWitnessParams.creatorAllocation
            (decimalsFor allocWitnessParams.tokenType))) :=
  generateCreateArgs_allocation_head allocWitnessParams (by decide)

/-! ## Helper lemmas about chain resolution -/

/-- When `chainStringToId` resolves a name, the resolved id is one of the
registry ids, hence non-zero, and `network` succeeds returning the client
unchanged. -/
theorem network_ok_of_name_resolves (c : ClientState) (s : String) (i : Nat)
    (hi : chainStringToId s = some i) :
    BondContract.network c (Sum.inr s) = Except.ok c := by
  have hs : s ≠ "" := by
    intro he
    rw [he] at hi
    simp [chainStringToId] at hi
  rw [chainStringToId, if_neg hs] at hi
  obtain ⟨ch, hfind, hid⟩ := Option.map_eq_some'.mp hi
  have hmem : ch ∈ CHAINS := List.mem_of_find?_eq_some hfind
  have hne : i ≠ 0 := hid ▸ chains_ids_ne_zero ch hmem
  simp [BondContract.network, chainStringToId, if_neg hs, hfind, hid, hne]

/-! ## Claim C3 -/

/-- **C3, counterexample.** The claim asserts that a numeric id is accepted
only if it matches a known registry entry, and that every input matching no
entry fails with `UnsupportedChain`.  The numeric id `999999` matches no
registry entry, yet `network` accepts it and proceeds. -/
theorem network_accepts_unregistered_numeric_id :
    resolvesToRegisteredChain (Sum.inl 999999) = false ∧
    BondContract.network sampleClient (Sum.inl 999999) =
      Except.ok sampleClient := by decide

/-- **C3, amended.** A chain *name* is resolved by case-insensitive lookup
against the registry and fails with `UnsupportedChain` when no entry matches
(`"sepolia"` resolves to the Sepolia testnet id `11155111`, `"unknownnet"`
fails); a *numeric* id, however, is not checked against the registry: every
non-zero id is accepted and only the id `0` fails. -/
theorem network_resolution_amended (c : ClientState) :
    (∀ s, chainStringToId s = none →
      BondContract.network c (Sum.inr s) =
        Except.error JsErr.unsupportedChain) ∧
    (∀ s i, chainStringToId s = some i →
      BondContract.network c (Sum.inr s) = Except.ok c) ∧
    (∀ n : Nat, BondContract.network c (Sum.inl n) =
      if n = 0 then Except.error JsErr.unsupportedChain else Except.ok c) ∧
    chainStringToId "sepolia" = some 11155111 ∧
    chainStringToId "SEPOLIA" = some 11155111 ∧
    chainStringToId "unknownnet" = none := by
  refine ⟨?_, ?_, ?_, by decide, by decide, by decide⟩
  · intro s hs
    simp [BondContract.network, hs]
  · intro s i hi
    exact network_ok_of_name_resolves c s i hi
  · intro n
    simp [BondContract.network]

/-- **C3, witness.** The amended claim evaluated at concrete inputs: the
unknown name `"unknownnet"` is rejected, the name `"sepolia"` is accepted,
and the unregistered numeric id `7777` is accepted. -/
theorem network_resolution_amended_witness :
    BondContract.network sampleClient (Sum.inr "unknownnet") =
      Except.error JsErr.unsupportedChain ∧
    BondContract.network sampleClient (Sum.inr "sepolia") =
      Except.ok sampleClient ∧
    BondContract.network sampleClient (Sum.inl 7777) =
      Except.ok sampleClient :=
  ⟨(network_resolution_amended sampleClient).1 "unknownnet" (by decide),
   (network_resolution_amended sampleClient).2.1 "sepolia" 11155111 (by decide),
   by rw [(network_resolution_amended sampleClient).2.2.1 7777]; decide⟩

/-! ## Claim C10 -/

/-- **C10.** For every argument that resolves to a registered chain,
`network` returns `Except.ok` of the very client state it was called on —
every field (chain id, contract type, abi, public client, wallet client) is
unchanged, because the resolved chain id is used only to decide whether to
fail and is then discarded. -/
theorem network_frame_preservation (c : ClientState) (id : Nat ⊕ String)
    (h : resolvesToRegisteredChain id = true) :
    BondContract.network c id = Except.ok c := by
  cases id with
  | inl n =>
    have hmem : ∃ ch ∈ CHAINS, ch.id = n := by
      simpa [resolvesToRegisteredChain] using h
    obtain ⟨ch, hch, hid⟩ := hmem
    have hn : n ≠ 0 := hid ▸ chains_ids_ne_zero ch hch
    simp [BondContract.network, hn]
  | inr s =>
    have hi : ∃ i, chainStringToId s = some i := by
      simpa [resolvesToRegisteredChain, Option.isSome_iff_exists] using h
    obtain ⟨i, hi⟩ := hi
    exact network_ok_of_name_resolves c s i hi

/-- **C10, witness.** `network` on the registered id `1` returns the client
unchanged. -/
theorem network_frame_preservation_witness :
    BondContract.network sampleClient (Sum.inl 1) = Except.ok sampleClient :=
  network_frame_preservation sampleClient (Sum.inl 1) (by decide)

/-! ## Claim C9 -/

/-- **C9.** On a supported chain id, `getInstance` returns the cached
instance when one exists and otherwise constructs and caches one; a second
sequential call with the same chain id returns the identical object (same
`objId`) and leaves the cache state untouched, so at most one instance per
chain id ever exists: after the first call the cache maps the chain id to
that instance, and when the id was not cached before, exactly one entry was
added. -/
theorem getInstance_singleton_cache (st : CacheState) (chainId : Nat)
    (ty1 : String) (abi1 : Nat) (ty2 : String) (abi2 : Nat)
    (h : CHAINS.any (·.id = chainId) = true) :
    ∃ inst,
      (getInstance st chainId ty1 abi1).1 = Except.ok inst ∧
      (getInstance (getInstance st chainId ty1 abi1).2 chainId ty2 abi2).1
        = Except.ok inst ∧
      (getInstance (getInstance st chainId ty1 abi1).2 chainId ty2 abi2).2
        = (getInstance st chainId ty1 abi1).2 ∧
      ((getInstance st chainId ty1 abi1).2).instances.lookup chainId
        = some inst ∧
      (st.instances.lookup chainId = none →
        ((getInstance st chainId ty1 abi1).2).instances
          = (chainId, inst) :: st.instances) := by
  cases hl : st.instances.lookup chainId with
  | some inst0 =>
    refine ⟨inst0, ?_, ?_, ?_, ?_, ?_⟩ <;>
      simp [getInstance, hl]
  | none =>
    refine ⟨⟨chainId, ty1, abi1, st.nextObjId⟩, ?_, ?_, ?_, ?_, ?_⟩ <;>
      simp [getInstance, hl, mkClientInstance, h, List.lookup]

/-- **C9, witness.** Two sequential `getInstance` calls for chain id `1` on
the empty cache return the identical instance object. -/
theorem getInstance_singleton_cache_witness :
    ∃ inst,
      (getInstance emptyCache 1 "BOND" 0).1 = Except.ok inst ∧
      (getInstance (getInstance emptyCache 1 "BOND" 0).2 1 "BOND" 0).1
        = Except.ok inst ∧
      (getInstance (getInstance emptyCache 1 "BOND" 0).2 1 "BOND" 0).2
        = (getInstance emptyCache 1 "BOND" 0).2 ∧
      ((getInstance emptyCache 1 "BOND" 0).2).instances.lookup 1 = some inst ∧
      (emptyCache.instances.lookup 1 = none →
        ((getInstance emptyCache 1 "BOND" 0).2).instances
          = (1, inst) :: emptyCache.instances) :=
  getInstance_singleton_cache emptyCache 1 "BOND" 0 "BOND" 0 (by decide)

/-! ## Claim C4 -/

/-- **C4.** Evaluation of both `createToken` orchestrators at a concrete
call that supplies all four lifecycle callbacks and creation fee `9`.
`BondContractLogic.createToken` issues
`write("createToken", [tokenParams, bondParams], value = fee)` with the
caller's callbacks forwarded unchanged, as the claim states; but
`BondContract.createToken` issues the same write with *no* callbacks — the
four callbacks accepted in its parameters are dropped, contradicting its own
parameter declaration and the claim.  (The `BondContractLogic` variant
forces the fungible token type, so its boundary is scaled by `10 ^ 18`.) -/
theorem createToken_callback_forwarding_divergence :
    BondContractLogic.createToken sampleCreateParamsL allCallbacks 9 =
      Except.ok ⟨"createToken", ⟨"Mint", "mint", none⟩,
        ⟨100, 100, "0xreserve", wei 100 18, [wei 100 18], [wei 5 0]⟩,
        some 9, allCallbacks⟩ ∧
    BondContract.createToken sampleCreateParams allCallbacks 9 =
      Except.ok ⟨"createToken", ⟨"Mint", "MINT", none⟩,
        ⟨100, 100, "0xreserve", 100, [100], [5]⟩,
        some 9, ⟨false, false, false, false⟩⟩ := by decide

/-! ## Helper lemmas about the write pipeline -/

/-- Every wallet client `initializeWallet` produces was created with
`chain: this.chain`, so its chain is the instance's target chain — which
makes the `switchChain`/`addChain` branch of `write` unreachable. -/
theorem initWallet_chainId (env : WriteEnv) (t : Nat) (wc : WalletClient)
    (h : initWallet env t = Except.ok wc) : wc.chainId = t := by
  unfold initWallet at h
  by_cases hb : env.hasWalletClient
  · rw [if_pos hb] at h
    cases hr : env.requestAddressesRes with
    | error e => rw [hr] at h; cases h
    | ok addrs => rw [hr] at h; cases h; rfl
  · rw [if_neg hb] at h
    by_cases hw : env.windowEthereum = false
    · rw [if_pos hw] at h; cases h
    · rw [if_neg hw] at h
      cases hr : env.requestAddressesRes with
      | error e => rw [hr] at h; cases h
      | ok addrs => rw [hr] at h; cases h; rfl

/-- The chain-alignment step succeeds outright when the wallet client is
already on the target chain. -/
theorem alignChain_ok (env : WriteEnv) (wc : WalletClient) (t : Nat)
    (h : wc.chainId = t) : alignChain env wc t = Except.ok () := by
  unfold alignChain
  rw [if_pos h]

/-- When the pre-`try` steps succeed (wallet bound to an account, addresses
readable), `write` behaves as its `try` block with the first returned
address as account. -/
theorem runWrite_reaches_try (env : WriteEnv) (t : Nat) (p : WriteParams)
    (wc : WalletClient) (addrs : List String)
    (h1 : initWallet env t = Except.ok wc) (h2 : ¬ wc.account = none)
    (h3 : env.getAddressesRes = Except.ok addrs) :
    runWrite env t p = runTry env p addrs.head? := by
  unfold runWrite
  rw [h1]
  dsimp only
  rw [if_neg h2, alignChain_ok env wc t (initWallet_chainId env t wc h1)]
  dsimp only
  rw [h3]

/-- The trace of a `write` call is empty (a pre-`try` failure raised) or is
the trace of its `try` block for some account. -/
theorem runWrite_trace_empty_or_try (env : WriteEnv) (t : Nat)
    (p : WriteParams) :
    (runWrite env t p).2 = [] ∨
    ∃ account, (runWrite env t p).2 = (runTry env p account).2 := by
  unfold runWrite
  cases hi : initWallet env t with
  | error e => exact Or.inl rfl
  | ok wc =>
    dsimp only
    by_cases h2 : wc.account = none
    · rw [if_pos h2]
      exact Or.inl rfl
    · rw [if_neg h2]
      cases ha : alignChain env wc t with
      | error e => exact Or.inl rfl
      | ok u =>
        cases hg : env.getAddressesRes with
        | error e => exact Or.inl rfl
        | ok addrs => exact Or.inr ⟨addrs.head?, rfl⟩

/-- When any step inside the `try` block fails, the block resolves with no
value, routes the annotated error to `onError` exactly when it was supplied
(as the final event), and otherwise emits no error callback at all. -/
theorem runTry_catches (env : WriteEnv) (p : WriteParams)
    (account : Option String)
    (hfail : (∃ e, env.simulateRes = Except.error e) ∨
             (∃ e, env.writeContractRes = Except.error e) ∨
             (∃ e, env.waitReceiptRes = Except.error e)) :
    (runTry env p account).1 = Except.ok none ∧
    (p.cbs.onError = true →
      ∃ e, (runTry env p account).2.getLast? =
        some (Event.cbError ⟨e, p.functionName, p.argsTag, account⟩)) ∧
    (p.cbs.onError = false →
      ∀ a, Event.cbError a ∉ (runTry env p account).2) := by
  cases hs : env.simulateRes with
  | error e =>
    refine ⟨by simp [runTry, hs], ?_, ?_⟩
    · intro ho
      exact ⟨e, by simp [runTry, hs, catchEvents, ho]⟩
    · intro ho a
      simp [runTry, hs, catchEvents, ho]
  | ok req =>
    cases hw : env.writeContractRes with
    | error e =>
      refine ⟨by simp [runTry, hs, hw], ?_, ?_⟩
      · intro ho
        refine ⟨e, ?_⟩
        by_cases hrs : p.cbs.onRequestSignature <;>
          simp [runTry, hs, hw, catchEvents, ho, hrs, List.getLast?]
      · intro ho a
        by_cases hrs : p.cbs.onRequestSignature <;>
          simp [runTry, hs, hw, catchEvents, ho, hrs]
    | ok tx =>
      cases hr : env.waitReceiptRes with
      | error e =>
        refine ⟨by simp [runTry, hs, hw, hr], ?_, ?_⟩
        · intro ho
          refine ⟨e, ?_⟩
          by_cases hrs : p.cbs.onRequestSignature <;>
            by_cases hsg : p.cbs.onSigned <;>
              simp [runTry, hs, hw, hr, catchEvents, ho, hrs, hsg,
                List.getLast?]
        · intro ho a
          by_cases hrs : p.cbs.onRequestSignature <;>
            by_cases hsg : p.cbs.onSigned <;>
              simp [runTry, hs, hw, hr, catchEvents, ho, hrs, hsg]
      | ok receipt =>
        exfalso
        rcases hfail with ⟨e, he⟩ | ⟨e, he⟩ | ⟨e, he⟩
        · rw [hs] at he; cases he
        · rw [hw] at he; cases he
        · rw [hr] at he; cases he

/-- A `write` whose simulation fails emits neither the signature-request
callback nor the signed callback: its trace is at most one error
callback. -/
theorem runTry_sim_error_no_sig (env : WriteEnv) (p : WriteParams)
    (account : Option String) (e : JsErr)
    (h : env.simulateRes = Except.error e) :
    Event.cbRequestSignature ∉ (runTry env p account).2 ∧
    ∀ tx, Event.cbSigned tx ∉ (runTry env p account).2 := by
  constructor
  · by_cases ho : p.cbs.onError <;> simp [runTry, h, catchEvents, ho]
  · intro tx
    by_cases ho : p.cbs.onError <;> simp [runTry, h, catchEvents, ho]

/-! ## Claim C1 -/

/-- **C1, counterexample.** The claim asserts that any failure at pipeline
steps 1–6, including signer binding, is caught, routed to `onError` and
resolved with no value.  With no pre-existing wallet client and no ambient
provider, signer binding (step 1) throws `No Ethereum provider found`; the
error re-raises to the caller and the supplied `onError` callback is never
invoked (empty event trace). -/
theorem write_step1_failure_reraises :
    runWrite envNoProvider 1 sampleWriteParams =
      (Except.error JsErr.noEthereumProvider, []) := by decide

/-- **C1, amended.** Failures during signer binding (step 1; likewise the
`No wallet client found` guard and chain alignment, which share the
pre-`try` region) re-raise to the caller with no callback fired; failures
during simulation, signature request/broadcast, or confirmation wait (steps
3–6) are caught, annotated with the attempted function name, arguments and
account, routed to `onError` exactly when it is supplied, and the write
resolves with no value instead of re-raising. -/
theorem write_error_routing_amended :
    (∀ env target p e, initWallet env target = Except.error e →
      runWrite env target p = (Except.error e, [])) ∧
    (∀ env target p wc addrs,
      initWallet env target = Except.ok wc → ¬ wc.account = none →
      env.getAddressesRes = Except.ok addrs →
      ((∃ e, env.simulateRes = Except.error e) ∨
       (∃ e, env.writeContractRes = Except.error e) ∨
       (∃ e, env.waitReceiptRes = Except.error e)) →
      (runWrite env target p).1 = Except.ok none ∧
      (p.cbs.onError = true →
        ∃ e, (runWrite env target p).2.getLast? =
          some (Event.cbError ⟨e, p.functionName, p.argsTag, addrs.head?⟩)) ∧
      (p.cbs.onError = false →
        ∀ a, Event.cbError a ∉ (runWrite env target p).2)) := by
  constructor
  · intro env target p e he
    unfold runWrite
    rw [he]
  · intro env target p wc addrs h1 h2 h3 hfail
    rw [runWrite_reaches_try env target p wc addrs h1 h2 h3]
    exact runTry_catches env p addrs.head? hfail

/-- **C1, witness.** The amended claim evaluated concretely: a step-1
failure re-raises with an empty trace, and a simulation failure resolves
with no value. -/
theorem write_error_routing_amended_witness :
    runWrite envNoProvider 2 sampleWriteParams =
      (Except.error JsErr.noEthereumProvider, []) ∧
    (runWrite envSimFail 1 sampleWriteParams).1 = Except.ok none :=
  ⟨write_error_routing_amended.1 envNoProvider 2 sampleWriteParams
      JsErr.noEthereumProvider rfl,
   (write_error_routing_amended.2 envSimFail 1 sampleWriteParams
      ⟨some "0xacc", 1⟩ ["0xacc"] rfl (by decide) rfl
      (Or.inl ⟨JsErr.ext 5, rfl⟩)).1⟩

/-! ## Claim C7 -/

/-- **C7.** A write whose simulation fails never invokes
`onRequestSignature` or `onSigned`; and on a fully successful write with
these callbacks supplied, the event trace is exactly: simulation succeeds,
`onRequestSignature` fires (once, before the signature is requested), the
transaction is submitted, `onSigned` fires (once, with the transaction
identifier, before confirmation is awaited), the receipt is confirmed, and
`onSuccess` fires (once, with the receipt). -/
theorem write_callback_discipline :
    (∀ env target p e, env.simulateRes = Except.error e →
      Event.cbRequestSignature ∉ (runWrite env target p).2 ∧
      ∀ tx, Event.cbSigned tx ∉ (runWrite env target p).2) ∧
    (∀ env target p wc addrs req tx receipt,
      initWallet env target = Except.ok wc → ¬ wc.account = none →
      env.getAddressesRes = Except.ok addrs →
      env.simulateRes = Except.ok req →
      env.writeContractRes = Except.ok tx →
      env.waitReceiptRes = Except.ok receipt →
      p.cbs.onRequestSignature = true → p.cbs.onSigned = true →
      p.cbs.onSuccess = true →
      (runWrite env target p).2 =
        [Event.simulated, Event.cbRequestSignature, Event.submitted tx,
         Event.cbSigned tx, Event.confirmed receipt,
         Event.cbSuccess receipt] ∧
      (runWrite env target p).1 = Except.ok (some receipt)) := by
  constructor
  · intro env target p e he
    rcases runWrite_trace_empty_or_try env target p with h | ⟨account, h⟩
    · rw [h]
      exact ⟨by simp, fun tx => by simp⟩
    · rw [h]
      exact runTry_sim_error_no_sig env p account e he
  · intro env target p wc addrs req tx receipt h1 h2 h3 hs hw hr hrs hsg hsc
    rw [runWrite_reaches_try env target p wc addrs h1 h2 h3]
    exact ⟨by simp [runTry, hs, hw, hr, hrs, hsg, hsc],
           by simp [runTry, hs, hw, hr]⟩

/-- **C7, witness.** Concrete evaluations: under `envSimFail` (simulation
rejects) neither signature callback is in the trace; under `envAllOk` the
trace is exactly the six ordered events and the receipt is returned. -/
theorem write_callback_discipline_witness :
    Event.cbRequestSignature ∉ (runWrite envSimFail 1 sampleWriteParams).2 ∧
    Event.cbSigned 2 ∉ (runWrite envSimFail 1 sampleWriteParams).2 ∧
    (runWrite envAllOk 1 sampleWriteParams).2 =
      [Event.simulated, Event.cbRequestSignature, Event.submitted 2,
       Event.cbSigned 2, Event.confirmed 3, Event.cbSuccess 3] ∧
    (runWrite envAllOk 1 sampleWriteParams).1 = Except.ok (some 3) :=
  ⟨(write_callback_discipline.1 envSimFail 1 sampleWriteParams (JsErr.ext 5)
      rfl).1,
   (write_callback_discipline.1 envSimFail 1 sampleWriteParams (JsErr.ext 5)
      rfl).2 2,
   (write_callback_discipline.2 envAllOk 1 sampleWriteParams ⟨some "0xacc", 1⟩
      ["0xacc"] 1 2 3 rfl (by decide) rfl rfl rfl rfl rfl rfl rfl).1,
   (write_callback_discipline.2 envAllOk 1 sampleWriteParams ⟨some "0xacc", 1⟩
      ["0xacc"] 1 2 3 rfl (by decide) rfl rfl rfl rfl rfl rfl rfl).2⟩
